import Mathlib

/-!
Verification of the otel-mlflow-integration demo repository.

The repository is a set of Python scripts and small FastAPI services:
`config.py` (environment-based configuration), `0_simple_trace_test.py`
(traced demo functions and a `main` driver), `1_fastapi_agent.py`,
`2_fastapi_agent.py` and `seed.py` (FastAPI apps), and
`1_setup_uc_trace_table.py` (Unity Catalog trace-table setup).

We shallowly embed the repository's own logic: JSON values, Python
`dict.get` / `str.split` / `str.upper` / substring semantics, the
configuration loader, the HTTP handlers (with the OpenAI chat-completion
call abstracted as an oracle), and the console/effect traces of the
scripts.  External SDK behaviour (MLflow, OpenTelemetry, OpenAI) is
modelled as opaque oracle parameters; everything the repository itself
computes is translated directly from the source.
-/

/-- JSON values, as produced by FastAPI's `request.json()` (Python's
`json` module).  Numbers are restricted to integers, which covers every
numeric value this repository constructs or inspects. -/
inductive Json where
  | null : Json
  | bool (b : Bool) : Json
  | num (n : Int) : Json
  | str (s : String) : Json
  | arr (elems : List Json) : Json
  | obj (fields : List (String × Json)) : Json

/-- Python runtime errors that the embedded code can raise. -/
inductive PyError where
  | attributeError (msg : String) : PyError
deriving DecidableEq, Repr

/-- Python `body.get(key, default)`: on a dict it returns the value at
`key` or `default` when the key is absent; on any non-dict JSON value
(list, string, number, bool, None) attribute lookup of `get` raises
`AttributeError`. -/
def Json.pyGet (body : Json) (key : String) (default : Json) : Except PyError Json :=
  match body with
  | .obj fields => .ok ((fields.lookup key).getD default)
  | _ => .error (.attributeError "get")

/-- Field lookup in a JSON object; `none` on non-objects. -/
def Json.lookupField (j : Json) (key : String) : Option Json :=
  match j with
  | .obj fields => fields.lookup key
  | _ => none

/-- Python `str(x)` on a JSON value (used by f-string interpolation of a
request field).  Only the string case matters to any claim; the other
cases follow Python's rendering closely enough for an opaque oracle
argument. -/
def Json.pyStr (j : Json) : String :=
  match j with
  | .null => "None"
  | .bool true => "True"
  | .bool false => "False"
  | .num n => toString n
  | .str s => s
  | .arr _ => "[...]"
  | .obj _ => "\x7b...\x7d"

/-- Does the character list `s` start with the character list `pat`? -/
def listStarts : List Char → List Char → Bool
  | [], _ => true
  | _ :: _, [] => false
  | p :: ps, c :: cs => p == c && listStarts ps cs

/-- Does the character list `s` contain `pat` as a contiguous run? -/
def listContains (pat : List Char) : List Char → Bool
  | [] => listStarts pat []
  | c :: cs => listStarts pat (c :: cs) || listContains pat (cs)

/-- Python's `pat in s` substring test on strings. -/
def pyIn (pat s : String) : Bool :=
  listContains pat.toList s.toList

/-- The whitespace characters recognised by Python's `str.split()` that
can occur in this repository's inputs: space, tab, newline, carriage
return, vertical tab, form feed. -/
def pySpaceChars : List Char :=
  [' ', '\t', '\n', '\r', Char.ofNat 11, Char.ofNat 12]

/-- Is `c` whitespace in the sense of Python's `str.split()`? -/
def isPySpace (c : Char) : Bool :=
  pySpaceChars.contains c

/-- Python `s.split()` with no separator: split on runs of whitespace,
discarding empty fragments (so leading/trailing/repeated whitespace
produces no empty words). -/
def pySplit (s : String) : List String :=
  (s.split (fun c => isPySpace c)).filter (fun w => w ≠ "")

/-- Python `s.upper()` (ASCII case mapping, which covers every string
this repository manipulates). -/
def pyUpper (s : String) : String :=
  s.map Char.toUpper

/-!
## `config.py`

Module-level configuration: each value is `os.getenv(name, default)`
evaluated once at module import, after `load_dotenv()` has populated the
environment.  The environment is modelled as a partial map from variable
names to strings.
-/

/-- A process environment: variable name to value. -/
def Env : Type := String → Option String

/-- Python `os.getenv(name, default)`. -/
def getenv (env : Env) (name default : String) : String :=
  (env name).getD default

namespace Config

/-- The module-level constants of `config.py`. -/
structure Settings where
  DATABRICKS_HOST : String
  DATABRICKS_TOKEN : String
  MLFLOW_TRACKING_URI : String
  MLFLOW_EXPERIMENT_NAME_BASIC : String
  MLFLOW_EXPERIMENT_NAME_OTEL : String
  MLFLOW_TRACING_SQL_WAREHOUSE_ID : String
  UC_CATALOG_NAME : String
  UC_SCHEMA_NAME : String
  OPENAI_API_KEY : String
deriving DecidableEq, Repr

/-- Import-time evaluation of `config.py`: every constant is read from
the environment exactly once, with a string default.
`MLFLOW_TRACKING_URI` defaults to the already-computed
`DATABRICKS_HOST`. -/
def loadConfig (env : Env) : Settings :=
  let host := getenv env "DATABRICKS_HOST" "https://your-workspace.cloud.databricks.com"
  { DATABRICKS_HOST := host
    DATABRICKS_TOKEN := getenv env "DATABRICKS_TOKEN" ""
    MLFLOW_TRACKING_URI := getenv env "MLFLOW_TRACKING_URI" host
    MLFLOW_EXPERIMENT_NAME_BASIC :=
      getenv env "MLFLOW_EXPERIMENT_NAME_BASIC" "/Users/your.email@company.com/otel-tracing-basic"
    MLFLOW_EXPERIMENT_NAME_OTEL :=
      getenv env "MLFLOW_EXPERIMENT_NAME_OTEL" "/Workspace/Users/your.email@databricks.com/otel-tracing-otel"
    MLFLOW_TRACING_SQL_WAREHOUSE_ID :=
      getenv env "MLFLOW_TRACING_SQL_WAREHOUSE_ID" "tttttttt336"
    UC_CATALOG_NAME := getenv env "UC_CATALOG_NAME" "my_catalog"
    UC_SCHEMA_NAME := getenv env "UC_SCHEMA_NAME" "my_schema"
    OPENAI_API_KEY := getenv env "OPENAI_API_KEY" "" }

/-- `validate_config` from `config.py`: appends one error message per
failed check (empty token, placeholder host, empty API key) and returns
the list.  Pure list construction; it can raise nothing. -/
def validate_config (c : Settings) : List String :=
  let errors : List String := []
  let errors := if c.DATABRICKS_TOKEN = "" then
    errors ++ ["DATABRICKS_TOKEN is not set"] else errors
  let errors := if pyIn "your-workspace" c.DATABRICKS_HOST then
    errors ++ ["DATABRICKS_HOST needs to be set to your actual workspace"] else errors
  let errors := if c.OPENAI_API_KEY = "" then
    errors ++ ["OPENAI_API_KEY is not set (only needed for OpenAI examples)"] else errors
  errors

end Config

/-!
## The FastAPI applications

The three web-service variants share the same shape: handlers parse the
JSON body with `body.get(key, default)`, call the OpenAI chat-completion
API, and return a JSON object.  The external chat-completion call is an
oracle parameter: any function from requests to responses.
-/

/-- An OpenAI `chat.completions.create` request as this repository
builds it: model name, `(role, content)` messages (the content is the
raw value taken from the request body, or a formatted string), and a
token limit. -/
structure ChatRequest where
  model : String
  messages : List (String × Json)
  max_tokens : Int

/-- The parts of an OpenAI chat-completion response the handlers read:
`choices[0].message.content` and `usage.total_tokens`. -/
structure ChatResponse where
  content : String
  total_tokens : Int

/-- The external chat-completion service, abstracted. -/
def LLM : Type := ChatRequest → ChatResponse

/-- An incoming HTTP request: method, path, parsed JSON body.  The
health-check handlers take the request and read nothing from it. -/
structure Request where
  method : String
  path : String
  body : Json

namespace FastAPI1

/-- `GET /` handler (`root`) of `1_fastapi_agent.py`: a literal dict
built from string literals and the module-level configuration; the
request is not consulted. -/
def root (cfg : Config.Settings) (_req : Request) : Json :=
  Json.obj [
    ("status", Json.str "ok"),
    ("message", Json.str "OpenTelemetry + MLflow Tracing Agent"),
    ("tracking_uri", Json.str cfg.MLFLOW_TRACKING_URI)]

/-- `POST /chat` handler (`chat`) of `1_fastapi_agent.py`. -/
def chat (llm : LLM) (body : Json) : Except PyError Json := do
  let query ← body.pyGet "query" (Json.str "Hello!")
  let response := llm {
    model := "gpt-4o-mini"
    messages := [
      ("system", Json.str "You are a helpful assistant."),
      ("user", query)]
    max_tokens := 150 }
  let answer := response.content
  pure (Json.obj [
    ("query", query),
    ("answer", Json.str answer),
    ("model", Json.str "gpt-4o-mini"),
    ("tokens_used", Json.num response.total_tokens)])

/-- The simulated document list of the `/rag/v1/answer` handler. -/
def documents : List String := [
  "MLflow is an open-source platform for ML lifecycle.",
  "OpenTelemetry provides observability for applications."]

/-- `POST /rag/v1/answer` handler (`answer_question`) of
`1_fastapi_agent.py`. -/
def answer_question (llm : LLM) (body : Json) : Except PyError Json := do
  let query ← body.pyGet "query" (Json.str "")
  let context := String.intercalate "\n" documents
  let prompt :=
    "Based on the following context, answer the question.\n    \nContext:\n"
      ++ context ++ "\n\nQuestion: " ++ query.pyStr ++ "\n\nAnswer:"
  let response := llm {
    model := "gpt-4o-mini"
    messages := [("user", Json.str prompt)]
    max_tokens := 200 }
  let answer := response.content
  pure (Json.obj [
    ("query", query),
    ("answer", Json.str answer),
    ("context_used", Json.num documents.length),
    ("model", Json.str "gpt-4o-mini")])

/-- `POST /agent/task` handler (`execute_task`) of `1_fastapi_agent.py`:
a planning completion and an execution completion, each appended to
`results`, with `steps_completed = len(results)`. -/
def execute_task (llm : LLM) (body : Json) : Except PyError Json := do
  let task ← body.pyGet "task" (Json.str "")
  let results : List Json := []
  let planning_response := llm {
    model := "gpt-4o-mini"
    messages := [("user", Json.str ("Break down this task into 3 simple steps: " ++ task.pyStr))]
    max_tokens := 150 }
  let steps := planning_response.content
  let results := results ++ [Json.obj [("step", Json.str "planning"), ("output", Json.str steps)]]
  let execution_response := llm {
    model := "gpt-4o-mini"
    messages := [("user", Json.str ("Execute this task: " ++ task.pyStr))]
    max_tokens := 200 }
  let result := execution_response.content
  let results := results ++ [Json.obj [("step", Json.str "execution"), ("output", Json.str result)]]
  pure (Json.obj [
    ("task", task),
    ("results", Json.arr results),
    ("steps_completed", Json.num results.length)])

/-- The routes registered on the `app` of `1_fastapi_agent.py`, in
decorator order: `(method, path, handler name)`. -/
def routes : List (String × String × String) := [
  ("GET", "/", "root"),
  ("POST", "/chat", "chat"),
  ("POST", "/rag/v1/answer", "answer_question"),
  ("POST", "/agent/task", "execute_task")]

end FastAPI1

namespace Seed

/-- `GET /` handler (`root`) of `seed.py`: status literal plus the
string rendering of the process-global tracer provider, which is set
once at module import.  The request is not consulted. -/
def root (providerStr : String) (_req : Request) : Json :=
  Json.obj [
    ("status", Json.str "ok"),
    ("otel_provider", Json.str providerStr)]

/-- `process_chat` of `seed.py`: wraps the completion call in MLflow and
OpenTelemetry spans and returns `choices[0].message.content`. -/
def process_chat (llm : LLM) (query : Json) : String :=
  let response := llm {
    model := "gpt-4o-mini"
    messages := [
      ("system", Json.str "You are a helpful assistant."),
      ("user", query)]
    max_tokens := 150 }
  response.content

/-- `POST /chat` handler (`chat`) of `seed.py`. -/
def chat (llm : LLM) (body : Json) : Except PyError Json := do
  let query ← body.pyGet "query" (Json.str "Hello!")
  let answer := process_chat llm query
  pure (Json.obj [
    ("query", query),
    ("answer", Json.str answer),
    ("model", Json.str "gpt-4o-mini")])

/-- The routes registered on the `app` of `seed.py`, in decorator
order: only the health check and the chat endpoint. -/
def routes : List (String × String × String) := [
  ("GET", "/", "root"),
  ("POST", "/chat", "chat")]

end Seed

namespace FastAPI2

/-- `GET /` handler (`root`) of `2_fastapi_agent.py`: same shape as the
`seed.py` health check. -/
def root (providerStr : String) (_req : Request) : Json :=
  Json.obj [
    ("status", Json.str "ok"),
    ("otel_provider", Json.str providerStr)]

/-- `process_chat` of `2_fastapi_agent.py` (identical to `seed.py`). -/
def process_chat (llm : LLM) (query : Json) : String :=
  let response := llm {
    model := "gpt-4o-mini"
    messages := [
      ("system", Json.str "You are a helpful assistant."),
      ("user", query)]
    max_tokens := 150 }
  response.content

/-- `POST /chat` handler (`chat`) of `2_fastapi_agent.py`. -/
def chat (llm : LLM) (body : Json) : Except PyError Json := do
  let query ← body.pyGet "query" (Json.str "Hello!")
  let answer := process_chat llm query
  pure (Json.obj [
    ("query", query),
    ("answer", Json.str answer),
    ("model", Json.str "gpt-4o-mini")])

/-- The simulated document list of `process_rag`. -/
def documents : List String := [
  "MLflow is an open-source platform for ML lifecycle.",
  "OpenTelemetry provides observability for applications."]

/-- `process_rag` of `2_fastapi_agent.py`. -/
def process_rag (llm : LLM) (query : Json) : String :=
  let context := String.intercalate "\n" documents
  let response := llm {
    model := "gpt-4o-mini"
    messages := [("user", Json.str ("Context:\n" ++ context ++ "\n\nQuestion: " ++ query.pyStr))]
    max_tokens := 200 }
  response.content

/-- `POST /rag/v1/answer` handler (`answer_question`) of
`2_fastapi_agent.py`. -/
def answer_question (llm : LLM) (body : Json) : Except PyError Json := do
  let query ← body.pyGet "query" (Json.str "")
  let answer := process_rag llm query
  pure (Json.obj [
    ("query", query),
    ("answer", Json.str answer)])

/-- `process_agent` of `2_fastapi_agent.py`: a planning completion, an
execution completion, returning the execution content. -/
def process_agent (llm : LLM) (task : Json) : String :=
  let _planning := llm {
    model := "gpt-4o-mini"
    messages := [("user", Json.str ("Break down this task: " ++ task.pyStr))]
    max_tokens := 150 }
  let execution := llm {
    model := "gpt-4o-mini"
    messages := [("user", Json.str ("Execute this task: " ++ task.pyStr))]
    max_tokens := 200 }
  execution.content

/-- `POST /agent/task` handler (`execute_task`) of `2_fastapi_agent.py`. -/
def execute_task (llm : LLM) (body : Json) : Except PyError Json := do
  let task ← body.pyGet "task" (Json.str "")
  let result := process_agent llm task
  pure (Json.obj [
    ("task", task),
    ("result", Json.str result)])

/-- The routes registered on the `app` of `2_fastapi_agent.py`, in
decorator order. -/
def routes : List (String × String × String) := [
  ("GET", "/", "root"),
  ("POST", "/chat", "chat"),
  ("POST", "/rag/v1/answer", "answer_question"),
  ("POST", "/agent/task", "execute_task")]

end FastAPI2

/-!
## `0_simple_trace_test.py`

`simple_function` and `multi_step_process` are pure computations wrapped
in tracing spans; `main` runs three test blocks, each in a
`try/except Exception` that prints the error and falls through.  A
traced call can raise at runtime (the tracing SDK exports spans), so
each call site takes a fault oracle: `none` means the call completes and
returns the pure value, `some e` means it raises an exception rendered
as `e`.  Python execution is modelled in a writer/except monad: the
console lines printed so far, plus either a value or an uncaught
exception.
-/

/-- Console output plus either a result or an uncaught Python
exception (rendered as its `str(...)`). -/
def PyRun (α : Type) : Type := List String × Except String α

/-- Sequencing: output accumulates; an exception skips the rest. -/
def pyBind {α β : Type} (m : PyRun α) (f : α → PyRun β) : PyRun β :=
  match m with
  | (out, .error e) => (out, .error e)
  | (out, .ok a) =>
    let r := f a
    (out ++ r.1, r.2)

/-- `print(s)`. -/
def pyPrint (s : String) : PyRun Unit := ([s], .ok ())

/-- A sequence of `print` calls. -/
def pyPrints (ls : List String) : PyRun Unit := (ls, .ok ())

/-- A call to a traced function: the fault oracle decides whether the
call raises; otherwise it returns the (pure) value `v`. -/
def pyCall {α : Type} (fault : Option String) (v : α) : PyRun α :=
  match fault with
  | some e => ([], .error e)
  | none => ([], .ok v)

/-- Python `try: body except Exception as e: <handler prints>`: output
produced before the exception is kept, the handler lines are appended,
and the exception does not propagate. -/
def tryExcept (body : PyRun Unit) (handler : String → List String) : PyRun Unit :=
  match body with
  | (out, .ok _) => (out, .ok ())
  | (out, .error e) => (out ++ handler e, .ok ())

/-- The apostrophe character, used to spell Python string literals. -/
def apos : String := (Char.ofNat 39).toString

namespace SimpleTrace

/-- `simple_function` from `0_simple_trace_test.py`: inside an
`add_numbers` span it records `x` and `y`, computes `result = x + y`,
records `result`, and returns it.  The second component is the span's
attribute log. -/
def simple_function (x y : Int) : Int × List (String × Int) :=
  let result := x + y
  (result, [("x", x), ("y", y), ("result", result)])

/-- The result dict of `multi_step_process`. -/
structure MSPResult where
  original : String
  processed : List String
  word_count : Nat
deriving DecidableEq, Repr

/-- `multi_step_process` from `0_simple_trace_test.py`: step 1 parses
with `input_data.split()`, step 2 upper-cases each word, step 3 builds
the result dict.  The span attributes (`input_length`, `word_count`,
`processed_count`, `result_keys`) are derived values recorded on
SDK-owned spans and are not part of the returned dict. -/
def multi_step_process (input_data : String) : MSPResult :=
  let parsed := pySplit input_data
  let processed := parsed.map pyUpper
  { original := input_data
    processed := processed
    word_count := parsed.length }

/-- Python `repr` of a string (single-quoted; none of the strings the
script prints need escaping). -/
def pyQuote (s : String) : String := apos ++ s ++ apos

/-- Python `repr` of a list of strings. -/
def pyReprStrList (l : List String) : String :=
  "[" ++ String.intercalate ", " (l.map pyQuote) ++ "]"

/-- Python `str(...)` of the `multi_step_process` result dict, as
printed by `main`. -/
def pyReprMSP (r : MSPResult) : String :=
  "\x7b" ++ pyQuote "original" ++ ": " ++ pyQuote r.original
    ++ ", " ++ pyQuote "processed" ++ ": " ++ pyReprStrList r.processed
    ++ ", " ++ pyQuote "word_count" ++ ": " ++ toString r.word_count ++ "\x7d"

/-- Fault oracles for the traced calls made by `main`: test 1's call,
test 2's call, and test 3's call at each loop index. -/
structure TraceFaults where
  t1 : Option String
  t2 : Option String
  t3 : Nat → Option String

/-- The body of test block 1. -/
def test1 (f : TraceFaults) : PyRun Unit :=
  pyBind (pyCall f.t1 (simple_function 5 3).1) (fun result =>
  pyBind (pyPrint ("Result: " ++ toString result)) (fun _ =>
  pyPrint "✓ Trace sent to Databricks"))

/-- The `except Exception as e` handler shared by the three blocks:
`print(f"✗ Error: {e}")`. -/
def errReport (e : String) : List String := ["✗ Error: " ++ e]

/-- The body of test block 2. -/
def test2 (f : TraceFaults) : PyRun Unit :=
  pyBind (pyCall f.t2 (multi_step_process "hello world from opentelemetry")) (fun result =>
  pyBind (pyPrint ("Result: " ++ pyReprMSP result)) (fun _ =>
  pyPrint "✓ Trace with nested spans sent to Databricks"))

/-- One iteration of test block 3's loop. -/
def test3iter (f : TraceFaults) (i : Nat) : PyRun Unit :=
  pyBind (pyCall (f.t3 i) (simple_function i (i + 1)).1) (fun result =>
  pyPrint ("  Trace " ++ toString (i + 1) ++ ": " ++ toString result))

/-- The body of test block 3: the `for i in range(3)` loop, then the
success line.  (`time.sleep(0.2)` produces no output.) -/
def test3 (f : TraceFaults) : PyRun Unit :=
  pyBind (test3iter f 0) (fun _ =>
  pyBind (test3iter f 1) (fun _ =>
  pyBind (test3iter f 2) (fun _ =>
  pyPrint "✓ Multiple traces sent to Databricks")))

/-- A line of 60 equals signs, `"=" * 60`. -/
def sixtyEquals : String :=
  String.mk (List.replicate 60 (Char.ofNat 61))

/-- The banner `main` prints before running the tests. -/
def mainHeader : List String := [
  sixtyEquals,
  "Example 0: Simple Trace Test (No LLM Required)",
  sixtyEquals,
  "\nThis test doesn" ++ apos ++ "t require OpenAI - just tests the",
  "OpenTelemetry -> Databricks connection.\n"]

/-- The lines printed by `setup_mlflow` (its MLflow SDK calls precede
the test blocks and are outside the scope of the per-block handlers). -/
def setupLines (cfg : Config.Settings) : List String := [
  "✓ MLflow configured",
  "  Tracking URI: databricks",
  "  Host: " ++ cfg.DATABRICKS_HOST,
  "  Experiment: " ++ cfg.MLFLOW_EXPERIMENT_NAME_BASIC]

/-- The closing lines `main` prints after the third block. -/
def mainFooter (cfg : Config.Settings) : List String := [
  "\n" ++ sixtyEquals,
  "✅ Tests complete!",
  "\nNext steps:",
  "  1. Go to your Databricks workspace",
  "  2. Navigate to: Machine Learning > Experiments",
  "  3. Open: " ++ cfg.MLFLOW_EXPERIMENT_NAME_BASIC,
  "  4. Click the " ++ apos ++ "Traces" ++ apos ++ " tab",
  "  5. You should see the traces from this test",
  "\nExpected traces:",
  "  - simple_function (x=5, y=3)",
  "  - multi_step_process (with 3 nested spans)",
  "  - simple_function (3 more traces)",
  sixtyEquals]

/-- `main` from `0_simple_trace_test.py`: banner, setup, then the three
test blocks, each wrapped in `try/except Exception` with the printing
handler, then the footer. -/
def mainRun (cfg : Config.Settings) (f : TraceFaults) : PyRun Unit :=
  pyBind (pyPrints (mainHeader ++ setupLines cfg)) (fun _ =>
  pyBind (pyPrint "\n--- Test 1: Simple traced function ---") (fun _ =>
  pyBind (tryExcept (test1 f) errReport) (fun _ =>
  pyBind (pyPrint "\n--- Test 2: Multi-step process ---") (fun _ =>
  pyBind (tryExcept (test2 f) errReport) (fun _ =>
  pyBind (pyPrint "\n--- Test 3: Multiple traces ---") (fun _ =>
  pyBind (tryExcept (test3 f) errReport) (fun _ =>
  pyPrints (mainFooter cfg))))))))

end SimpleTrace

/-!
## `1_setup_uc_trace_table.py`

The script has its own configuration block (read at import, all defaults
empty except the experiment name) and its own `validate_config`.
`setup_uc_trace_table` either stops on validation errors or performs a
sequence of effects: set an environment variable, set the tracking URI,
create or retrieve an experiment, link it to a Unity Catalog schema.
The MLflow SDK is an oracle; the effects performed are recorded as an
explicit action trace alongside the console output.
-/

namespace SetupUC

/-- The module-level configuration of `1_setup_uc_trace_table.py`. -/
structure Cfg where
  SQL_WAREHOUSE_ID : String
  UC_CATALOG_NAME : String
  UC_SCHEMA_NAME : String
  EXPERIMENT_NAME : String
deriving DecidableEq, Repr

/-- Import-time configuration reads of `1_setup_uc_trace_table.py`. -/
def loadCfg (env : Env) : Cfg :=
  { SQL_WAREHOUSE_ID := getenv env "MLFLOW_TRACING_SQL_WAREHOUSE_ID" ""
    UC_CATALOG_NAME := getenv env "UC_CATALOG_NAME" ""
    UC_SCHEMA_NAME := getenv env "UC_SCHEMA_NAME" ""
    EXPERIMENT_NAME :=
      getenv env "MLFLOW_EXPERIMENT_NAME_OTEL" "/Users/your.email@company.com/uc-trace-experiment" }

/-- `validate_config` from `1_setup_uc_trace_table.py`. -/
def validate_config (c : Cfg) : List String :=
  let errors : List String := []
  let errors := if c.SQL_WAREHOUSE_ID = "" then
    errors ++ ["MLFLOW_TRACING_SQL_WAREHOUSE_ID is not set"] else errors
  let errors := if c.UC_CATALOG_NAME = "" then
    errors ++ ["UC_CATALOG_NAME is not set"] else errors
  let errors := if c.UC_SCHEMA_NAME = "" then
    errors ++ ["UC_SCHEMA_NAME is not set"] else errors
  let errors := if pyIn "your.email" c.EXPERIMENT_NAME then
    errors ++ ["MLFLOW_EXPERIMENT_NAME_UC needs to be set to your actual experiment path"] else errors
  errors

/-- The externally visible setup effects `setup_uc_trace_table` can
perform, in order. -/
inductive Action where
  | osEnvironSet (name value : String)
  | setTrackingUri (uri : String)
  | createExperiment (name : String)
  | getExperimentByName (name : String)
  | setTraceLocation (catalog schemaName experimentId : String)
deriving DecidableEq, Repr

/-- The part of `set_experiment_trace_location`'s result the script
reads. -/
structure TraceResult where
  full_otel_spans_table_name : String
deriving DecidableEq, Repr

/-- The MLflow SDK, abstracted: experiment creation may raise
`MlflowException` (modelled as `.error msg`), lookup by name may find
nothing, and linking may raise any exception. -/
structure MlflowOracle where
  createExperiment : String → Except String String
  getExperimentByName : String → Option String
  setTraceLocation : String → String → String → Except String TraceResult

/-- `"=" * 60` as printed by the setup script. -/
def sixtyEquals : String :=
  String.mk (List.replicate 60 (Char.ofNat 61))

/-- The banner printed before validation. -/
def banner : List String :=
  [sixtyEquals, "Setting up Unity Catalog Trace Table", sixtyEquals]

/-- The configuration summary printed after validation succeeds. -/
def configSummary (c : Cfg) : List String := [
  "\n📋 Configuration:",
  "   Experiment: " ++ c.EXPERIMENT_NAME,
  "   Catalog: " ++ c.UC_CATALOG_NAME,
  "   Schema: " ++ c.UC_SCHEMA_NAME,
  "   SQL Warehouse: " ++ c.SQL_WAREHOUSE_ID]

/-- The linking step of `setup_uc_trace_table` (the second `try` block),
given the experiment id and the actions performed so far. -/
def linkStep (c : Cfg) (o : MlflowOracle) (experiment_id : String)
    (out : List String) (acts : List Action) :
    List String × List Action × Option TraceResult :=
  let out := out ++ ["\n🔗 Linking experiment to Unity Catalog schema..."]
  let acts := acts ++ [Action.setTraceLocation c.UC_CATALOG_NAME c.UC_SCHEMA_NAME experiment_id]
  match o.setTraceLocation c.UC_CATALOG_NAME c.UC_SCHEMA_NAME experiment_id with
  | .ok result =>
    (out ++ [
      "   ✅ Successfully linked!",
      "\n📊 Trace Table Information:",
      "   Full table name: " ++ result.full_otel_spans_table_name,
      "\n💡 You can now query your traces with SQL:",
      "   SELECT * FROM " ++ result.full_otel_spans_table_name ++ " LIMIT 10"],
     acts, some result)
  | .error e =>
    (out ++ ["   ❌ Failed to set trace location: " ++ e], acts, none)

/-- `setup_uc_trace_table` from `1_setup_uc_trace_table.py`: print the
banner, validate; on errors print them and return `None` (no effect);
otherwise set the warehouse environment variable, set the tracking URI,
create or retrieve the experiment, and link it to the UC schema. -/
def setup_uc_trace_table (c : Cfg) (o : MlflowOracle) :
    List String × List Action × Option TraceResult :=
  let out := banner
  let errors := validate_config c
  if errors ≠ [] then
    (out ++ ["\n❌ Configuration errors:"]
         ++ errors.map (fun error => "   - " ++ error)
         ++ ["\nPlease update your .env file with the required values.",
             "See env_template.txt for reference."],
     [], none)
  else
    let acts := [Action.osEnvironSet "MLFLOW_TRACING_SQL_WAREHOUSE_ID" c.SQL_WAREHOUSE_ID,
                 Action.setTrackingUri "databricks"]
    let out := out ++ configSummary c ++ ["\n🔧 Creating/retrieving experiment..."]
    let acts := acts ++ [Action.createExperiment c.EXPERIMENT_NAME]
    match o.createExperiment c.EXPERIMENT_NAME with
    | .ok experiment_id =>
      linkStep c o experiment_id
        (out ++ ["   ✅ Created new experiment with ID: " ++ experiment_id]) acts
    | .error e =>
      let acts := acts ++ [Action.getExperimentByName c.EXPERIMENT_NAME]
      match o.getExperimentByName c.EXPERIMENT_NAME with
      | some experiment_id =>
        linkStep c o experiment_id
          (out ++ ["   ✅ Using existing experiment with ID: " ++ experiment_id]) acts
      | none =>
        (out ++ ["   ❌ Failed to create or find experiment: " ++ e], acts, none)

end SetupUC

/-!
## Process-level operations

The scripts mutate process state only through a fixed repertoire of
operations: `os.environ[...] = ...` assignments,
`mlflow.set_tracking_uri`, `mlflow.set_experiment`,
`mlflow.openai.autolog`, `mlflow.tracing.set_destination`,
`mlflow.create_experiment`, `set_experiment_trace_location`, and
`trace.set_tracer_provider`.  No statement anywhere in the repository
assigns to an attribute of the `config` module after import.  A process
state carries the import-time configuration alongside the mutable parts.
-/

/-- The state-changing operations performed by the scripts. -/
inductive Op where
  | osEnvironSet (name value : String)
  | mlflowSetTrackingUri (uri : String)
  | mlflowSetExperiment (name : String)
  | mlflowOpenaiAutolog
  | mlflowSetDestination (catalog schemaName : String)
  | mlflowCreateExperiment (name : String)
  | mlflowSetExperimentTraceLocation (catalog schemaName experimentId : String)
  | otelSetTracerProvider (provider : String)

/-- Update one environment variable. -/
def envSet (env : Env) (name value : String) : Env :=
  fun n => if n = name then some value else env n

/-- Process state after importing `config.py`: the configuration
constants plus the mutable process-wide settings the scripts touch. -/
structure ProcState where
  config : Config.Settings
  osEnviron : Env
  trackingUri : Option String
  experimentName : Option String
  autologEnabled : Bool
  destination : Option (String × String)
  tracerProvider : Option String

/-- The state right after module import: configuration loaded from the
environment, nothing else configured yet. -/
def initState (env : Env) : ProcState :=
  { config := Config.loadConfig env
    osEnviron := env
    trackingUri := none
    experimentName := none
    autologEnabled := false
    destination := none
    tracerProvider := none }

/-- Effect of one operation on the process state.  Every case leaves
`config` untouched: no operation in the repository writes to a
`config` attribute. -/
def applyOp (s : ProcState) (op : Op) : ProcState :=
  match op with
  | .osEnvironSet n v => { s with osEnviron := envSet s.osEnviron n v }
  | .mlflowSetTrackingUri u => { s with trackingUri := some u }
  | .mlflowSetExperiment n => { s with experimentName := some n }
  | .mlflowOpenaiAutolog => { s with autologEnabled := true }
  | .mlflowSetDestination c sc => { s with destination := some (c, sc) }
  | .mlflowCreateExperiment _ => s
  | .mlflowSetExperimentTraceLocation _ _ _ => s
  | .otelSetTracerProvider p => { s with tracerProvider := some p }

/-- Run a sequence of operations from the import-time state. -/
def runOps (env : Env) (ops : List Op) : ProcState :=
  ops.foldl applyOp (initState env)

/-- The operations of `setup_mlflow` in `0_simple_trace_test.py`. -/
def setup_mlflow_ops (c : Config.Settings) : List Op := [
  .osEnvironSet "DATABRICKS_HOST" c.DATABRICKS_HOST,
  .osEnvironSet "DATABRICKS_TOKEN" c.DATABRICKS_TOKEN,
  .mlflowSetTrackingUri "databricks",
  .mlflowSetExperiment c.MLFLOW_EXPERIMENT_NAME_BASIC]

/-- The operations of `1_fastapi_agent.py`: the module-level environment
write, then the `lifespan` startup block. -/
def fastapi1_ops (c : Config.Settings) : List Op := [
  .osEnvironSet "MLFLOW_USE_DEFAULT_TRACER_PROVIDER" "false",
  .osEnvironSet "DATABRICKS_HOST" c.DATABRICKS_HOST,
  .osEnvironSet "DATABRICKS_TOKEN" c.DATABRICKS_TOKEN,
  .mlflowSetTrackingUri "databricks",
  .mlflowSetExperiment c.MLFLOW_EXPERIMENT_NAME_OTEL,
  .mlflowOpenaiAutolog]

/-- The operations of `seed.py` and `2_fastapi_agent.py`: module-level
environment writes and tracer-provider registration, then the
`lifespan` startup block. -/
def fastapi2_ops (c : Config.Settings) : List Op := [
  .osEnvironSet "DATABRICKS_HOST" c.DATABRICKS_HOST,
  .osEnvironSet "DATABRICKS_TOKEN" c.DATABRICKS_TOKEN,
  .osEnvironSet "MLFLOW_TRACKING_URI" "databricks",
  .osEnvironSet "MLFLOW_EXPERIMENT_NAME" c.MLFLOW_EXPERIMENT_NAME_OTEL,
  .osEnvironSet "MLFLOW_USE_DEFAULT_TRACER_PROVIDER" "false",
  .otelSetTracerProvider "fastapi-otel-agent",
  .mlflowSetTrackingUri "databricks",
  .mlflowSetDestination c.UC_CATALOG_NAME c.UC_SCHEMA_NAME,
  .mlflowSetExperiment c.MLFLOW_EXPERIMENT_NAME_OTEL]

/-- The operations of the happy path of `setup_uc_trace_table` in
`1_setup_uc_trace_table.py`. -/
def setup_uc_ops (c : SetupUC.Cfg) (experiment_id : String) : List Op := [
  .osEnvironSet "MLFLOW_TRACING_SQL_WAREHOUSE_ID" c.SQL_WAREHOUSE_ID,
  .mlflowSetTrackingUri "databricks",
  .mlflowCreateExperiment c.EXPERIMENT_NAME,
  .mlflowSetExperimentTraceLocation c.UC_CATALOG_NAME c.UC_SCHEMA_NAME experiment_id]

/-!
## Spec-side predicates and concrete fixtures

The predicates below restate claim language (expected response shapes,
the claimed route surface) for comparison against the handlers embedded
above.  The fixtures are concrete oracles/configurations used by
counterexamples and witnesses.
-/

/-- Spec wording for the `/chat` response `query` field: "the `query`
field of the request body, or the default `Hello!` when that field is
absent". -/
def claimedQuery (body : Json) : Json :=
  match body.lookupField "query" with
  | some v => v
  | none => Json.str "Hello!"

/-- Spec wording for C1: the handler result is a JSON object containing
the keys `query`, `answer` and `model`, with the `query` field as
claimed. -/
def chatRespClaim (body : Json) (r : Except PyError Json) : Prop :=
  ∃ fields, r = .ok (Json.obj fields)
    ∧ fields.lookup "query" = some (claimedQuery body)
    ∧ (fields.lookup "answer").isSome = true
    ∧ (fields.lookup "model").isSome = true

/-- Spec wording for C10: the `results` field is a list of exactly two
entries with `step` fields `planning` then `execution`, and
`steps_completed` equals its length. -/
def taskRespClaim (r : Except PyError Json) : Prop :=
  ∃ fields results, r = .ok (Json.obj fields)
    ∧ fields.lookup "results" = some (Json.arr results)
    ∧ results.length = 2
    ∧ (∃ f0, results.get? 0 = some (Json.obj f0) ∧ f0.lookup "step" = some (Json.str "planning"))
    ∧ (∃ f1, results.get? 1 = some (Json.obj f1) ∧ f1.lookup "step" = some (Json.str "execution"))
    ∧ fields.lookup "steps_completed" = some (Json.num results.length)

/-- Spec wording for C5: the claimed `(method, path)` surface. -/
def claimedRoutes : List (String × String) := [
  ("GET", "/"), ("POST", "/chat"), ("POST", "/rag/v1/answer"), ("POST", "/agent/task")]

/-- Drop the handler names from a route table. -/
def routePairs (rs : List (String × String × String)) : List (String × String) :=
  rs.map (fun r => (r.1, r.2.1))

/-- A fixed chat-completion oracle for closed counterexamples. -/
def constLLM : LLM := fun _ => { content := "ok", total_tokens := 0 }

/-- The empty environment (no variables set). -/
def emptyEnv : Env := fun _ => none

/-- A one-variable environment used by the C7 witness. -/
def envEx : Env :=
  fun n => if n = "DATABRICKS_TOKEN" then some "dapi-secret" else none

/-- A setup configuration failing validation (everything empty, default
experiment path), used by the C4 witness. -/
def setupCfgEx : SetupUC.Cfg :=
  { SQL_WAREHOUSE_ID := ""
    UC_CATALOG_NAME := ""
    UC_SCHEMA_NAME := ""
    EXPERIMENT_NAME := "/Users/your.email@company.com/uc-trace-experiment" }

/-- A concrete MLflow oracle for the C4 witness. -/
def setupOracleEx : SetupUC.MlflowOracle :=
  { createExperiment := fun _ => .error "exists"
    getExperimentByName := fun _ => none
    setTraceLocation := fun _ _ _ => .error "denied" }

/-- Concrete fault oracles for the C6 witness: test 1 raises, the rest
succeed. -/
def faultsEx : SimpleTrace.TraceFaults :=
  { t1 := some "ConnectionError"
    t2 := none
    t3 := fun _ => none }

/-- The configuration loaded from the empty environment (all defaults). -/
def cfgDefaults : Config.Settings := Config.loadConfig emptyEnv

/-!
## Theorems
-/

/-- C8: for all integers `x` and `y`, `simple_function(x, y)` returns
`x + y` (Python integers are unbounded, so plain `Int` addition). -/
theorem C8_simple_function_adds (x y : Int) :
    (SimpleTrace.simple_function x y).1 = x + y := rfl

/-- C9: `multi_step_process(s)` returns a dict whose `original` field is
`s`, whose `processed` field is the whitespace-separated words of `s`
upper-cased in order, and whose `word_count` field is the number of
whitespace-separated words (which also equals the length of
`processed`). -/
theorem C9_multi_step_process_shape (s : String) :
    (SimpleTrace.multi_step_process s).original = s
    ∧ (SimpleTrace.multi_step_process s).processed = (pySplit s).map pyUpper
    ∧ (SimpleTrace.multi_step_process s).word_count = (pySplit s).length
    ∧ (SimpleTrace.multi_step_process s).word_count
        = (SimpleTrace.multi_step_process s).processed.length := by
  refine ⟨rfl, rfl, rfl, ?_⟩
  simp [SimpleTrace.multi_step_process]

/-- C3: `validate_config` in `config.py` returns `[]` exactly when the
token is non-empty, the host does not contain `your-workspace`, and the
API key is non-empty; otherwise the list has one message per failed
check.  (It is a total function on the configuration record, so it
cannot raise.) -/
theorem C3_validate_config_characterisation (c : Config.Settings) :
    (Config.validate_config c = [] ↔
      (c.DATABRICKS_TOKEN ≠ "" ∧ pyIn "your-workspace" c.DATABRICKS_HOST = false
        ∧ c.OPENAI_API_KEY ≠ ""))
    ∧ (Config.validate_config c).length =
        (if c.DATABRICKS_TOKEN = "" then 1 else 0)
        + (if pyIn "your-workspace" c.DATABRICKS_HOST then 1 else 0)
        + (if c.OPENAI_API_KEY = "" then 1 else 0) := by
  by_cases h1 : c.DATABRICKS_TOKEN = "" <;>
    by_cases h2 : pyIn "your-workspace" c.DATABRICKS_HOST = true <;>
      by_cases h3 : c.OPENAI_API_KEY = "" <;>
        simp [Config.validate_config, h1, h2, h3]

/-- C5 counterexample: the claim is stated over all "web-service
variants", but `seed.py` registers only `GET /` and `POST /chat`; the
claimed route `POST /rag/v1/answer` is not registered there. -/
theorem C5_counterexample :
    ("POST", "/rag/v1/answer") ∈ claimedRoutes
    ∧ ("POST", "/rag/v1/answer") ∉ routePairs Seed.routes := by
  decide

/-- C5 as amended: `1_fastapi_agent.py` and `2_fastapi_agent.py` each
register exactly the four claimed routes (in that order), while
`seed.py` registers exactly `GET /` and `POST /chat` and nothing else. -/
theorem C5_amended_routes :
    routePairs FastAPI1.routes = claimedRoutes
    ∧ routePairs FastAPI2.routes = claimedRoutes
    ∧ routePairs Seed.routes = [("GET", "/"), ("POST", "/chat")] :=
  ⟨rfl, rfl, rfl⟩

/-- C2: each `GET /` handler returns the same JSON object for every
request — the handlers read only values fixed at startup (module
configuration, the tracer provider registered at import) — and that
object has `"status": "ok"`. -/
theorem C2_health_check_fixed (cfg : Config.Settings) (providerStr : String)
    (r1 r2 : Request) :
    FastAPI1.root cfg r1 = FastAPI1.root cfg r2
    ∧ (FastAPI1.root cfg r1).lookupField "status" = some (Json.str "ok")
    ∧ Seed.root providerStr r1 = Seed.root providerStr r2
    ∧ (Seed.root providerStr r1).lookupField "status" = some (Json.str "ok")
    ∧ FastAPI2.root providerStr r1 = FastAPI2.root providerStr r2
    ∧ (FastAPI2.root providerStr r1).lookupField "status" = some (Json.str "ok") :=
  ⟨rfl, rfl, rfl, rfl, rfl, rfl⟩

/-- C1 counterexample: the claim quantifies over every JSON request
body, but on a non-dict body — here the JSON array `[]` — the handler
evaluates `body.get("query", "Hello!")`, which raises
`AttributeError` (lists have no `get`), so no JSON object is returned.
The failure happens before the completion call, so the concrete oracle
is immaterial. -/
theorem C1_counterexample :
    ¬ chatRespClaim (Json.arr []) (FastAPI1.chat constLLM (Json.arr [])) := by
  rintro ⟨fields, h, -, -, -⟩
  rw [show FastAPI1.chat constLLM (Json.arr [])
        = Except.error (PyError.attributeError "get") from rfl] at h
  exact Except.noConfusion h

/-- C1 as amended: for every JSON **object** request body, both `POST
/chat` handlers (`1_fastapi_agent.py` and `seed.py`) return a JSON
object containing the keys `query`, `answer` and `model`, with the
`query` field equal to the body's `query` field, or `"Hello!"` when it
is absent. -/
theorem C1_chat_response_keys (llm : LLM) (body : List (String × Json)) :
    chatRespClaim (Json.obj body) (FastAPI1.chat llm (Json.obj body))
    ∧ chatRespClaim (Json.obj body) (Seed.chat llm (Json.obj body)) := by
  constructor <;>
    refine ⟨_, rfl, ?_, rfl, rfl⟩ <;>
      cases h : body.lookup "query" <;>
        simp [claimedQuery, Json.lookupField, h, List.lookup]

/-- C10 counterexample: the claim quantifies over every JSON request
body, but on the JSON array `[]` the handler's
`body.get("task", "")` raises `AttributeError`, so no JSON object with
a `results` field is returned. -/
theorem C10_counterexample :
    ¬ taskRespClaim (FastAPI1.execute_task constLLM (Json.arr [])) := by
  rintro ⟨fields, results, h, -⟩
  rw [show FastAPI1.execute_task constLLM (Json.arr [])
        = Except.error (PyError.attributeError "get") from rfl] at h
  exact Except.noConfusion h

/-- C10 as amended: for every JSON **object** request body, the `POST
/agent/task` handler of `1_fastapi_agent.py` returns a JSON object
whose `results` field is a list of exactly two entries — `step`
`"planning"` then `step` `"execution"` — and whose `steps_completed`
field equals the length of that list. -/
theorem C10_agent_task_two_steps (llm : LLM) (body : List (String × Json)) :
    taskRespClaim (FastAPI1.execute_task llm (Json.obj body)) := by
  refine ⟨_, _, rfl, rfl, rfl, ⟨_, rfl, rfl⟩, ⟨_, rfl, rfl⟩, rfl⟩

/-- C4: whenever `validate_config` in `1_setup_uc_trace_table.py`
returns a non-empty error list, `setup_uc_trace_table` prints the
banner, the errors and the remediation hint, and returns `None` with an
empty effect trace: no environment variable set, no tracking URI set,
no experiment created or linked. -/
theorem C4_setup_stops_on_config_errors (c : SetupUC.Cfg) (o : SetupUC.MlflowOracle)
    (h : SetupUC.validate_config c ≠ []) :
    SetupUC.setup_uc_trace_table c o =
      (SetupUC.banner ++ ["\n❌ Configuration errors:"]
        ++ (SetupUC.validate_config c).map (fun error => "   - " ++ error)
        ++ ["\nPlease update your .env file with the required values.",
            "See env_template.txt for reference."],
       [], none) := by
  simp [SetupUC.setup_uc_trace_table, h]

/-- C4 witness: with the all-empty setup configuration the validator
reports errors and `setup_uc_trace_table` performs no effect. -/
theorem C4_witness :
    SetupUC.setup_uc_trace_table setupCfgEx setupOracleEx =
      (SetupUC.banner ++ ["\n❌ Configuration errors:"]
        ++ (SetupUC.validate_config setupCfgEx).map (fun error => "   - " ++ error)
        ++ ["\nPlease update your .env file with the required values.",
            "See env_template.txt for reference."],
       [], none) :=
  C4_setup_stops_on_config_errors setupCfgEx setupOracleEx (by decide)

/-- C7: every configuration value of `config.py` is read from the
environment at module load with a string default (`MLFLOW_TRACKING_URI`
defaulting to the computed `DATABRICKS_HOST`), and no operation any
script performs afterwards changes it: the `config` component of the
process state is invariant under every sequence of the scripts'
state-changing operations. -/
theorem C7_config_read_once_immutable (env : Env) (ops : List Op) :
    (runOps env ops).config = Config.loadConfig env
    ∧ ((env "DATABRICKS_HOST" = none →
          (Config.loadConfig env).DATABRICKS_HOST = "https://your-workspace.cloud.databricks.com")
        ∧ ∀ v, env "DATABRICKS_HOST" = some v → (Config.loadConfig env).DATABRICKS_HOST = v)
    ∧ ((env "DATABRICKS_TOKEN" = none → (Config.loadConfig env).DATABRICKS_TOKEN = "")
        ∧ ∀ v, env "DATABRICKS_TOKEN" = some v → (Config.loadConfig env).DATABRICKS_TOKEN = v)
    ∧ ((env "MLFLOW_TRACKING_URI" = none →
          (Config.loadConfig env).MLFLOW_TRACKING_URI = (Config.loadConfig env).DATABRICKS_HOST)
        ∧ ∀ v, env "MLFLOW_TRACKING_URI" = some v → (Config.loadConfig env).MLFLOW_TRACKING_URI = v)
    ∧ ((env "MLFLOW_EXPERIMENT_NAME_BASIC" = none →
          (Config.loadConfig env).MLFLOW_EXPERIMENT_NAME_BASIC
            = "/Users/your.email@company.com/otel-tracing-basic")
        ∧ ∀ v, env "MLFLOW_EXPERIMENT_NAME_BASIC" = some v →
            (Config.loadConfig env).MLFLOW_EXPERIMENT_NAME_BASIC = v)
    ∧ ((env "MLFLOW_EXPERIMENT_NAME_OTEL" = none →
          (Config.loadConfig env).MLFLOW_EXPERIMENT_NAME_OTEL
            = "/Workspace/Users/your.email@databricks.com/otel-tracing-otel")
        ∧ ∀ v, env "MLFLOW_EXPERIMENT_NAME_OTEL" = some v →
            (Config.loadConfig env).MLFLOW_EXPERIMENT_NAME_OTEL = v)
    ∧ ((env "MLFLOW_TRACING_SQL_WAREHOUSE_ID" = none →
          (Config.loadConfig env).MLFLOW_TRACING_SQL_WAREHOUSE_ID = "tttttttt336")
        ∧ ∀ v, env "MLFLOW_TRACING_SQL_WAREHOUSE_ID" = some v →
            (Config.loadConfig env).MLFLOW_TRACING_SQL_WAREHOUSE_ID = v)
    ∧ ((env "UC_CATALOG_NAME" = none → (Config.loadConfig env).UC_CATALOG_NAME = "my_catalog")
        ∧ ∀ v, env "UC_CATALOG_NAME" = some v → (Config.loadConfig env).UC_CATALOG_NAME = v)
    ∧ ((env "UC_SCHEMA_NAME" = none → (Config.loadConfig env).UC_SCHEMA_NAME = "my_schema")
        ∧ ∀ v, env "UC_SCHEMA_NAME" = some v → (Config.loadConfig env).UC_SCHEMA_NAME = v)
    ∧ ((env "OPENAI_API_KEY" = none → (Config.loadConfig env).OPENAI_API_KEY = "")
        ∧ ∀ v, env "OPENAI_API_KEY" = some v → (Config.loadConfig env).OPENAI_API_KEY = v) := by
  have hfold : ∀ (l : List Op) (s : ProcState), (List.foldl applyOp s l).config = s.config := by
    intro l
    induction l with
    | nil => intro s; rfl
    | cons op l ih =>
      intro s
      rw [List.foldl_cons, ih]
      cases op <;> rfl
  refine ⟨hfold ops (initState env), ?_, ?_, ?_, ?_, ?_, ?_, ?_, ?_, ?_⟩ <;>
    constructor <;>
      intros <;> simp_all [Config.loadConfig, getenv]

/-- C7 witness: in an environment that sets only `DATABRICKS_TOKEN`,
the configuration survives the whole operation sequence of
`1_fastapi_agent.py` unchanged, and the token field holds the
environment value. -/
theorem C7_witness :
    (runOps envEx (fastapi1_ops (Config.loadConfig envEx))).config = Config.loadConfig envEx
    ∧ (Config.loadConfig envEx).DATABRICKS_TOKEN = "dapi-secret" := by
  have h := C7_config_read_once_immutable envEx (fastapi1_ops (Config.loadConfig envEx))
  exact ⟨h.1, h.2.2.1.2 "dapi-secret" (by simp [envEx])⟩

/-- C6: whatever the three test blocks of `main` in
`0_simple_trace_test.py` do — each traced call may raise — `main`
finishes with no uncaught exception, every later block header and the
closing banner are still printed, and each exception raised inside a
block is reported on the console as `✗ Error: ...` by that block's
handler. -/
theorem C6_main_catches_block_exceptions (cfg : Config.Settings)
    (f : SimpleTrace.TraceFaults) :
    (SimpleTrace.mainRun cfg f).2 = .ok ()
    ∧ "\n--- Test 2: Multi-step process ---" ∈ (SimpleTrace.mainRun cfg f).1
    ∧ "\n--- Test 3: Multiple traces ---" ∈ (SimpleTrace.mainRun cfg f).1
    ∧ "✅ Tests complete!" ∈ (SimpleTrace.mainRun cfg f).1
    ∧ (∀ e, f.t1 = some e → ("✗ Error: " ++ e) ∈ (SimpleTrace.mainRun cfg f).1)
    ∧ (∀ e, f.t2 = some e → ("✗ Error: " ++ e) ∈ (SimpleTrace.mainRun cfg f).1)
    ∧ (∀ e, f.t3 0 = some e → ("✗ Error: " ++ e) ∈ (SimpleTrace.mainRun cfg f).1)
    ∧ (∀ e, f.t3 0 = none → f.t3 1 = some e → ("✗ Error: " ++ e) ∈ (SimpleTrace.mainRun cfg f).1)
    ∧ (∀ e, f.t3 0 = none → f.t3 1 = none → f.t3 2 = some e →
        ("✗ Error: " ++ e) ∈ (SimpleTrace.mainRun cfg f).1) := by
  rcases h1 : f.t1 with - | e1 <;> rcases h2 : f.t2 with - | e2 <;>
    rcases h30 : f.t3 0 with - | e30 <;> rcases h31 : f.t3 1 with - | e31 <;>
      rcases h32 : f.t3 2 with - | e32 <;>
        simp [SimpleTrace.mainRun, pyBind, pyPrint, pyPrints, pyCall, tryExcept,
          SimpleTrace.test1, SimpleTrace.test2, SimpleTrace.test3, SimpleTrace.test3iter,
          SimpleTrace.errReport, SimpleTrace.mainHeader, SimpleTrace.setupLines,
          SimpleTrace.mainFooter, h1, h2, h30, h31, h32]

/-- C6 witness: with a connection failure in test block 1 and the other
blocks succeeding, `main` still finishes normally and prints the
error. -/
theorem C6_witness :
    (SimpleTrace.mainRun cfgDefaults faultsEx).2 = .ok ()
    ∧ ("✗ Error: " ++ "ConnectionError") ∈ (SimpleTrace.mainRun cfgDefaults faultsEx).1 := by
  have h := C6_main_catches_block_exceptions cfgDefaults faultsEx
  exact ⟨h.1, h.2.2.2.2.1 "ConnectionError" rfl⟩
